import Mathlib

/-!
Shallow embedding of the GX encoder from `Orca_Gcode_to_GX.py` (single-extruder
variant) and `Orca_Gcode_to_Gx_DualExt.py` (dual-extruder variant).

A G-code document is the list of lines as produced by Python `readlines()`
(each line normally keeps its trailing newline).  Pure fragments of the two
scripts are translated function by function; fallible Python operations
(`int`, `float`, `struct.pack`, `str.encode`) become `Option`-valued
functions, where `none` models the exception the Python builtin raises.
File I/O and the PIL image codec are outside the source's pure core: the
codec (base64+PNG decode, resize, BMP re-encode, and the generated blank
BMP) is abstracted as an explicit `Codec` parameter.
-/

/-- Whitespace characters recognized by Python `str.strip()` / `str.split()`
(ASCII subset; the exotic unicode spaces are not modelled). -/
def isPySpace (c : Char) : Bool :=
  c = ' ' || c = '\t' || c = '\n' || c = '\r' || c = '\x0b' || c = '\x0c'

/-- Strip leading and trailing whitespace from a character list. -/
def pyStripList (cs : List Char) : List Char :=
  ((cs.dropWhile isPySpace).reverse.dropWhile isPySpace).reverse

/-- Model of Python `str.strip()`. -/
def pyStrip (s : String) : String := String.mk (pyStripList s.toList)

/-- Model of Python `str.lstrip('; ')`: remove leading characters belonging
to the set containing a semicolon and a space. -/
def lstripSemiSpace (s : String) : String :=
  String.mk (s.toList.dropWhile (fun c => c = ';' || c = ' '))

/-- Split a character list on every occurrence of a separator character,
keeping empty pieces, as Python `str.split(sep)` does for a one-character
separator. -/
def splitOnChar (sep : Char) : List Char → List (List Char)
  | [] => [[]]
  | c :: cs =>
    if c = sep then [] :: splitOnChar sep cs
    else
      match splitOnChar sep cs with
      | [] => [[c]]
      | h :: t => (c :: h) :: t

/-- Model of Python `line.split('=')[1]`: the text between the first and the
second equals sign (every line the scripts index this way contains an
equals sign, so the fallback branch is unreachable there). -/
def afterEq (s : String) : String :=
  match splitOnChar '=' s.toList with
  | _ :: v :: _ => String.mk v
  | _ => ""

/-- Helper of pyWords accumulating the current word in reverse. -/
def pyWordsAux : List Char → List Char → List String
  | [], acc => if acc.isEmpty then [] else [String.mk acc.reverse]
  | c :: cs, acc =>
    if isPySpace c then
      if acc.isEmpty then pyWordsAux cs [] else String.mk acc.reverse :: pyWordsAux cs []
    else pyWordsAux cs (c :: acc)

/-- Model of Python `str.split()` with no argument: split on whitespace runs,
discarding empty pieces. -/
def pyWords (s : String) : List String := pyWordsAux s.toList []

/-- Model of Python `part.replace(ch, "")`: remove every occurrence of the
one-character pattern. -/
def removeAllChar (ch : Char) (s : String) : String :=
  String.mk (s.toList.filter (fun c => c != ch))

/-- Numeric value of a digit string (most significant first). -/
def natFromDigits (cs : List Char) : Nat :=
  cs.foldl (fun n c => n * 10 + (c.toNat - 48)) 0

/-- All-digit check feeding Python `int()`: at least one character and only
decimal digits. -/
def digitsToNat (cs : List Char) : Option Nat :=
  if !cs.isEmpty && cs.all Char.isDigit then some (natFromDigits cs) else none

/-- Model of Python `int(s)` on a string: strip whitespace, optional sign,
then decimal digits; `none` models the `ValueError` Python raises (digit
group separators and non-decimal bases are not modelled). -/
def pyInt (s : String) : Option Int :=
  match pyStripList s.toList with
  | '-' :: ds => (digitsToNat ds).map (fun n => -(n : Int))
  | '+' :: ds => (digitsToNat ds).map (fun n => (n : Int))
  | ds => (digitsToNat ds).map (fun n => (n : Int))

/-- The exact value of a parsed decimal literal, represented as
`mant / 10 ^ scale` (Python's binary floating-point rounding of that value
is not modelled; the literals the scripts parse are used only through
truncation, where the exact value is the intent). -/
structure Dec where
  mant : Int
  scale : Nat
  deriving DecidableEq

/-- Unsigned decimal literal: the leading digit run, optionally a dot and
more digits, at least one digit overall. -/
def parseUnsignedDec (cs : List Char) : Option Dec :=
  match cs.dropWhile Char.isDigit with
  | [] =>
    if (cs.takeWhile Char.isDigit).isEmpty then none
    else some ⟨(natFromDigits (cs.takeWhile Char.isDigit) : Int), 0⟩
  | '.' :: fr =>
    if fr.all Char.isDigit && !((cs.takeWhile Char.isDigit).isEmpty && fr.isEmpty) then
      some ⟨(natFromDigits (cs.takeWhile Char.isDigit ++ fr) : Int), fr.length⟩
    else none
  | _ => none

/-- Model of Python `float(s)` on plain decimal literals: strip whitespace,
optional sign, decimal digits with an optional fraction part; exponents,
`inf`, `nan` and digit separators are not modelled, as no claim exercises
them.  `none` models the `ValueError` Python raises. -/
def pyFloat (s : String) : Option Dec :=
  match pyStripList s.toList with
  | '-' :: cs => (parseUnsignedDec cs).map (fun d => ⟨-d.mant, d.scale⟩)
  | '+' :: cs => parseUnsignedDec cs
  | cs => parseUnsignedDec cs

/-- Truncation toward zero of `mant / 10 ^ scale`, the behavior of Python
`int()` on a float. -/
def decTrunc (d : Dec) : Int :=
  if 0 ≤ d.mant then ((d.mant.toNat / 10 ^ d.scale : Nat) : Int)
  else -((d.mant.natAbs / 10 ^ d.scale : Nat) : Int)

/-- Multiplication of a decimal value by 1000, as in `float(...) * 1000`. -/
def decMul1000 (d : Dec) : Dec := ⟨d.mant * 1000, d.scale⟩

/-- Model of Python `int(float(s))`. -/
def pyIntFloat (s : String) : Option Int := (pyFloat s).map decTrunc

/-- Model of Python `s.startswith(pre)`. -/
def strStartsWith (s pre : String) : Bool := pre.toList.isPrefixOf s.toList

/-- Contiguous-sublist check on character lists (sliding window). -/
def containsSubList (pat : List Char) : List Char → Bool
  | [] => pat.isEmpty
  | c :: cs => pat.isPrefixOf (c :: cs) || containsSubList pat cs

/-- Model of Python `pat in s` substring containment. -/
def containsSub (s pat : String) : Bool := containsSubList pat.toList s.toList

/-- Model of Python `"".join(lines)`. -/
def pyJoin : List String → String
  | [] => ""
  | s :: ss => s ++ pyJoin ss

/-- Model of Python `text.encode('latin-1')` (strict): each character code
point must fit in one byte, otherwise a `UnicodeEncodeError` is raised,
modelled by `none`. -/
def encodeLatin1 (s : String) : Option (List Nat) :=
  if s.toList.all (fun ch => ch.toNat ≤ 255) then some (s.toList.map Char.toNat)
  else none

/-- Little-endian byte decomposition of a natural number into `w` bytes. -/
def leBytes : Nat → Nat → List Nat
  | 0, _ => []
  | w + 1, n => n % 256 :: leBytes w (n / 256)

/-- Model of `struct.pack("<i", x)`: a 4-byte little-endian signed integer;
`none` models the `struct.error` raised when the value is out of range. -/
def packI32 (x : Int) : Option (List Nat) :=
  if -2147483648 ≤ x ∧ x < 2147483648 then some (leBytes 4 ((x % 4294967296).toNat))
  else none

/-- Model of `struct.pack("<h", x)`: a 2-byte little-endian signed integer. -/
def packI16 (x : Int) : Option (List Nat) :=
  if -32768 ≤ x ∧ x < 32768 then some (leBytes 2 ((x % 65536).toNat))
  else none

/-- Model of `struct.pack("<4i", a, b, c, d)`. -/
def pack4i (a b c d : Int) : Option (List Nat) :=
  match packI32 a, packI32 b, packI32 c, packI32 d with
  | some x, some y, some z, some w => some (x ++ y ++ z ++ w)
  | _, _, _, _ => none

/-- Model of `struct.pack("<iiih", a, b, c, d)`. -/
def packiiih (a b c d : Int) : Option (List Nat) :=
  match packI32 a, packI32 b, packI32 c, packI16 d with
  | some x, some y, some z, some w => some (x ++ y ++ z ++ w)
  | _, _, _, _ => none

/-- Model of `struct.pack("<8h", ...)`. -/
def pack8h (a b c d e f g h : Int) : Option (List Nat) :=
  match packI16 a, packI16 b, packI16 c, packI16 d, packI16 e, packI16 f, packI16 g, packI16 h with
  | some x1, some x2, some x3, some x4, some x5, some x6, some x7, some x8 =>
    some (x1 ++ x2 ++ x3 ++ x4 ++ x5 ++ x6 ++ x7 ++ x8)
  | _, _, _, _, _, _, _, _ => none

/-- The 12-byte literal written first: the bytes of `xgcode 1.0` with a
newline, followed by a single zero byte. -/
def signature : List Nat := ("xgcode 1.0\n".toList.map Char.toNat) ++ [0]

/-- Recompose a little-endian byte list into a natural number. -/
def natOfLE : List Nat → Nat
  | [] => 0
  | b :: bs => b + 256 * natOfLE bs

/-- Read a 4-byte little-endian list as a signed 32-bit integer. -/
def decodeI32LE (bs : List Nat) : Int :=
  if natOfLE bs < 2147483648 then (natOfLE bs : Int)
  else (natOfLE bs : Int) - 4294967296

/-- External image machinery abstracted from the scripts: `decodeImage`
models the chain `base64.b64decode` then PIL `open / convert("RGB") /
resize((80, 60)) / save(format="BMP")` applied to the collected base64 text
(`none` models any exception that chain raises), and `blankBmp` the bytes of
the PIL-generated blank white 80x60 BMP of `generate_blank_bmp`. -/
structure Codec where
  decodeImage : String → Option (List Nat)
  blankBmp : List Nat

/-- The scan loop of `extract_and_convert_thumbnail`: accumulate the
stripped content of the lines strictly between a line containing the
begin-marker and the first line containing the end-marker, where the loop
breaks. -/
def collectB64 : List String → Bool → String
  | [], _ => ""
  | l :: ls, inside =>
    if containsSub l "thumbnail begin" then collectB64 ls true
    else if containsSub l "thumbnail end" then ""
    else if inside then lstripSemiSpace (pyStrip l) ++ collectB64 ls inside
    else collectB64 ls inside

/-- `GXWriter.extract_and_convert_thumbnail` (both scripts are identical):
if no base64 text was collected the function returns `None`; otherwise the
codec chain runs, returning `None` on any exception. -/
def extract_and_convert_thumbnail (c : Codec) (doc : List String) : Option (List Nat) :=
  if collectB64 doc false = "" then none else c.decodeImage (collectB64 doc false)

/-- The fallback `self.extract_and_convert_thumbnail() or
self.generate_blank_bmp()` in `__init__`: Python `or` falls through to the
blank bitmap on `None` and also on an empty byte string. -/
def chooseBmp (c : Codec) (doc : List String) : List Nat :=
  match extract_and_convert_thumbnail c doc with
  | some b => if b.isEmpty then c.blankBmp else b
  | none => c.blankBmp

/-- The shared shape of the estimated-printing-time loop: walk the
whitespace-separated parts; a part containing an `h` (`m`, `s`) has that
letter removed everywhere and the remainder parsed with `int()`,
overwriting the hours (minutes, seconds) accumulator; other parts are
ignored. -/
def timeFold : List String → Int → Int → Int → Option (Int × Int × Int)
  | [], h, m, s => some (h, m, s)
  | p :: ps, h, m, s =>
    if p.toList.contains 'h' then
      match pyInt (removeAllChar 'h' p) with
      | some v => timeFold ps v m s
      | none => none
    else if p.toList.contains 'm' then
      match pyInt (removeAllChar 'm' p) with
      | some v => timeFold ps h v s
      | none => none
    else if p.toList.contains 's' then
      match pyInt (removeAllChar 's' p) with
      | some v => timeFold ps h m v
      | none => none
    else timeFold ps h m s

namespace Single

/-- The metadata attributes of `GXWriter` in `Orca_Gcode_to_GX.py` with
their `__init__` defaults.  Python creates `filament_usage_left` only when
a filament line is assigned (line 58) and never reads it afterwards; it is
carried here with default 0. -/
structure Metadata where
  print_time : Int := 0
  filament_usage : Int := 0
  filament_usage_left : Int := 0
  layer_height : Int := 0
  print_speed : Int := 60
  bed_temp : Int := 0
  print_temp : Int := 0
  deriving DecidableEq

/-- The normalization part of `GXWriter.load_gcode` (single-extruder): if
none of the first 10 lines starts with `T0`, the line
`T0 ; Set primary extruder` (no trailing newline) is inserted at index 0.
The file-reading part is I/O and outside the embedding. -/
def load_gcode (doc : List String) : List String :=
  if (doc.take 10).any (fun l => strStartsWith l "T0") then doc
  else "T0 ; Set primary extruder" :: doc

/-- One iteration of the `extract_metadata` loop: a recognized prefix
yields the field update its branch performs, an unrecognized line yields
the identity, and an unparsable value under a recognized prefix yields
`none` (the uncaught `ValueError`). -/
def updateLine (line : String) : Option (Metadata → Metadata) :=
  if strStartsWith line "; estimated printing time (normal mode) =" then
    match timeFold (pyWords (pyStrip (afterEq line))) 0 0 0 with
    | some (h, m, s) => some (fun md => { md with print_time := h * 3600 + m * 60 + s })
    | none => none
  else if strStartsWith line "; filament used [mm] =" then
    match pyIntFloat (pyStrip (afterEq line)) with
    | some v => some (fun md => { md with filament_usage := v, filament_usage_left := 0 })
    | none => none
  else if strStartsWith line "; layer_height =" then
    match pyFloat (pyStrip (afterEq line)) with
    | some q => some (fun md => { md with layer_height := decTrunc (decMul1000 q) })
    | none => none
  else if strStartsWith line "; machine_max_speed_x =" then
    match pyInt (pyStrip (afterEq line)) with
    | some v => some (fun md => { md with print_speed := v })
    | none => none
  else if strStartsWith line "; first_layer_bed_temperature =" then
    match pyInt (pyStrip (afterEq line)) with
    | some v => some (fun md => { md with bed_temp := v })
    | none => none
  else if strStartsWith line "; nozzle_temperature =" then
    match pyInt (pyStrip (afterEq line)) with
    | some v => some (fun md => { md with print_temp := v })
    | none => none
  else some (fun md => md)

/-- The `extract_metadata` loop from a given accumulated state. -/
def extract_metadata_from : List String → Metadata → Option Metadata
  | [], md => some md
  | l :: ls, md =>
    match updateLine l with
    | some f => extract_metadata_from ls (f md)
    | none => none

/-- `GXWriter.extract_metadata` (single-extruder): fold the per-line
updates over the document starting from the `__init__` defaults; `none`
models the uncaught parse exception aborting the run. -/
def extract_metadata (doc : List String) : Option Metadata :=
  extract_metadata_from doc {}

/-- `GXWriter.encode_gx` (single-extruder).  Note the source packs
`self.filament_usage` twice in the `<iiih` group (line 108): the slot the
spec calls `filament_usage_secondary` receives `filament_usage`, not the
`filament_usage_left` that line 58 set to 0. -/
def encode_gx (md : Metadata) (bmp : List Nat) (doc : List String) : Option (List Nat) :=
  match encodeLatin1 (pyJoin doc),
        pack4i 0 58 14512 14512,
        packiiih (max md.print_time 1) md.filament_usage md.filament_usage 0,
        pack8h md.layer_height 0 2 md.print_speed md.bed_temp md.print_temp 0 1 with
  | some gb, some p1, some p2, some p3 => some (signature ++ p1 ++ p2 ++ p3 ++ bmp ++ gb)
  | _, _, _, _ => none

/-- The pure pipeline of `__init__` + `save_gx` (single-extruder) minus
file I/O: normalize, extract metadata (aborting the run on a parse
failure), choose the thumbnail bytes, assemble. -/
def convert (c : Codec) (doc : List String) : Option (List Nat) :=
  match extract_metadata (load_gcode doc) with
  | some md => encode_gx md (chooseBmp c (load_gcode doc)) (load_gcode doc)
  | none => none

end Single

namespace Dual

/-- The metadata attributes of `GXWriter` in `Orca_Gcode_to_Gx_DualExt.py`
with their `__init__` defaults. -/
structure Metadata where
  print_time : Int := 0
  filament_usage : Int := 0
  filament_usage_left : Int := 0
  layer_height : Int := 0
  print_speed : Int := 60
  bed_temp : Int := 0
  print_temp : Int := 0
  print_temp_left : Int := 0
  multi_extruder_type : Int := 1
  deriving DecidableEq

/-- The normalization part of `GXWriter.load_gcode` (dual-extruder):
immediately after the first line whose stripped content equals
`; Executable_black_start`, insert a `T0` line then a `T1` line and stop
scanning; with no such line the document is unchanged. -/
def load_gcode : List String → List String
  | [] => []
  | l :: ls =>
    if pyStrip l = "; Executable_black_start" then
      l :: "T0 ; Set first extruder\n" :: "T1 ; Set second extruder\n" :: ls
    else l :: load_gcode ls

/-- One iteration of the dual-extruder `extract_metadata` loop. -/
def updateLine (line : String) : Option (Metadata → Metadata) :=
  if strStartsWith line "; estimated printing time (normal mode) =" then
    match timeFold (pyWords (pyStrip (afterEq line))) 0 0 0 with
    | some (h, m, s) => some (fun md => { md with print_time := h * 3600 + m * 60 + s })
    | none => none
  else if strStartsWith line "; filament used [mm] =" then
    match (splitOnChar ',' (pyStrip (afterEq line)).toList).map String.mk with
    | [v] =>
      match pyIntFloat (pyStrip v) with
      | some p => some (fun md => { md with filament_usage := p })
      | none => none
    | v0 :: v1 :: _ =>
      match pyIntFloat (pyStrip v0), pyIntFloat (pyStrip v1) with
      | some p, some q => some (fun md => { md with filament_usage := p, filament_usage_left := q })
      | _, _ => none
    | [] => none
  else if strStartsWith line "; layer_height =" then
    match pyFloat (pyStrip (afterEq line)) with
    | some q => some (fun md => { md with layer_height := decTrunc (decMul1000 q) })
    | none => none
  else if strStartsWith line "; machine_max_speed_x =" then
    match pyInt (pyStrip (afterEq line)) with
    | some v => some (fun md => { md with print_speed := v })
    | none => none
  else if strStartsWith line "; first_layer_bed_temperature =" then
    match pyInt (pyStrip (afterEq line)) with
    | some v => some (fun md => { md with bed_temp := v })
    | none => none
  else if strStartsWith line "; nozzle_temperature =" then
    match (splitOnChar ',' (pyStrip (afterEq line)).toList).map String.mk with
    | [v] =>
      match pyInt v with
      | some p => some (fun md => { md with print_temp := p })
      | none => none
    | v0 :: v1 :: _ =>
      match pyInt v0, pyInt v1 with
      | some p, some q => some (fun md => { md with print_temp := p, print_temp_left := q })
      | _, _ => none
    | [] => none
  else some (fun md => md)

/-- The dual-extruder `extract_metadata` loop from a given state. -/
def extract_metadata_from : List String → Metadata → Option Metadata
  | [], md => some md
  | l :: ls, md =>
    match updateLine l with
    | some f => extract_metadata_from ls (f md)
    | none => none

/-- `GXWriter.extract_metadata` (dual-extruder). -/
def extract_metadata (doc : List String) : Option Metadata :=
  extract_metadata_from doc {}

/-- `GXWriter.encode_gx` (dual-extruder): the `<iiih` group packs
`filament_usage`, `filament_usage_left` and `multi_extruder_type`, and the
`<8h` group includes `print_temp_left`. -/
def encode_gx (md : Metadata) (bmp : List Nat) (doc : List String) : Option (List Nat) :=
  match encodeLatin1 (pyJoin doc),
        pack4i 0 58 14512 14512,
        packiiih (max md.print_time 1) md.filament_usage md.filament_usage_left md.multi_extruder_type,
        pack8h md.layer_height 0 2 md.print_speed md.bed_temp md.print_temp md.print_temp_left 1 with
  | some gb, some p1, some p2, some p3 => some (signature ++ p1 ++ p2 ++ p3 ++ bmp ++ gb)
  | _, _, _, _ => none

/-- The pure pipeline of `__init__` + `save_gx` (dual-extruder) minus file
I/O. -/
def convert (c : Codec) (doc : List String) : Option (List Nat) :=
  match extract_metadata (load_gcode doc) with
  | some md => encode_gx md (chooseBmp c (load_gcode doc)) (load_gcode doc)
  | none => none

end Dual

/-- A concrete codec used to evaluate the pipeline on closed inputs: the
image chain always fails and the blank bitmap is a two-byte stand-in. -/
def codec0 : Codec := ⟨fun _ => none, [66, 77]⟩

/-! Helper lemmas about the byte-packing primitives. -/

theorem leBytes_length (w n : Nat) : (leBytes w n).length = w := by
  induction w generalizing n with
  | zero => rfl
  | succ w ih => simp [leBytes, ih]

theorem natOfLE_leBytes (w n : Nat) (h : n < 256 ^ w) : natOfLE (leBytes w n) = n := by
  induction w generalizing n with
  | zero => simp at h; simp [leBytes, natOfLE, h]
  | succ w ih =>
    have hpow : 256 ^ (w + 1) = 256 ^ w * 256 := pow_succ 256 w
    have hdiv : n / 256 < 256 ^ w := by omega
    simp [leBytes, natOfLE, ih (n / 256) hdiv]
    omega

theorem packI32_length (x : Int) (b : List Nat) (h : packI32 x = some b) : b.length = 4 := by
  unfold packI32 at h
  split at h
  · exact (Option.some_inj.mp h) ▸ leBytes_length 4 _
  · exact absurd h (by simp)

theorem packI16_length (x : Int) (b : List Nat) (h : packI16 x = some b) : b.length = 2 := by
  unfold packI16 at h
  split at h
  · exact (Option.some_inj.mp h) ▸ leBytes_length 2 _
  · exact absurd h (by simp)

theorem packI32_decodeI32LE (x : Int) (b : List Nat) (h : packI32 x = some b) :
    decodeI32LE b = x := by
  unfold packI32 at h
  split at h
  · rename_i hr
    have hb : b = leBytes 4 ((x % 4294967296).toNat) := (Option.some_inj.mp h).symm
    have hlt : (x % 4294967296).toNat < 256 ^ 4 := by
      have h0 : (0 : Int) ≤ x % 4294967296 := by omega
      have h1 : x % 4294967296 < 4294967296 := by omega
      have : (256 : Nat) ^ 4 = 4294967296 := by norm_num
      omega
    have hrec : natOfLE (leBytes 4 ((x % 4294967296).toNat)) = (x % 4294967296).toNat :=
      natOfLE_leBytes 4 _ hlt
    subst hb
    unfold decodeI32LE
    rw [hrec]
    have hc : ((x % 4294967296).toNat : Int) = x % 4294967296 := by omega
    split <;> rename_i hcase <;> omega
  · exact absurd h (by simp)

theorem signature_length : signature.length = 12 := by decide

theorem pack4i_parts (a b c d : Int) (p : List Nat) (h : pack4i a b c d = some p) :
    ∃ x y z w, packI32 a = some x ∧ packI32 b = some y ∧ packI32 c = some z ∧
      packI32 d = some w ∧ p = x ++ y ++ z ++ w := by
  unfold pack4i at h
  split at h
  · rename_i x y z w hx hy hz hw
    exact ⟨x, y, z, w, hx, hy, hz, hw, (Option.some_inj.mp h).symm⟩
  · exact absurd h (by simp)

theorem pack4i_length (a b c d : Int) (p : List Nat) (h : pack4i a b c d = some p) :
    p.length = 16 := by
  obtain ⟨x, y, z, w, hx, hy, hz, hw, hp⟩ := pack4i_parts a b c d p h
  subst hp
  simp [packI32_length _ _ hx, packI32_length _ _ hy, packI32_length _ _ hz,
    packI32_length _ _ hw]

theorem packiiih_parts (a b c d : Int) (p : List Nat) (h : packiiih a b c d = some p) :
    ∃ x y z w, packI32 a = some x ∧ packI32 b = some y ∧ packI32 c = some z ∧
      packI16 d = some w ∧ p = x ++ y ++ z ++ w := by
  unfold packiiih at h
  split at h
  · rename_i x y z w hx hy hz hw
    exact ⟨x, y, z, w, hx, hy, hz, hw, (Option.some_inj.mp h).symm⟩
  · exact absurd h (by simp)

theorem packiiih_length (a b c d : Int) (p : List Nat) (h : packiiih a b c d = some p) :
    p.length = 14 := by
  obtain ⟨x, y, z, w, hx, hy, hz, hw, hp⟩ := packiiih_parts a b c d p h
  subst hp
  simp [packI32_length _ _ hx, packI32_length _ _ hy, packI32_length _ _ hz,
    packI16_length _ _ hw]

theorem pack8h_length (a b c d e f g h : Int) (p : List Nat)
    (hp : pack8h a b c d e f g h = some p) : p.length = 16 := by
  unfold pack8h at hp
  split at hp
  · rename_i x1 x2 x3 x4 x5 x6 x7 x8 h1 h2 h3 h4 h5 h6 h7 h8
    have := (Option.some_inj.mp hp).symm
    subst this
    simp [packI16_length _ _ h1, packI16_length _ _ h2, packI16_length _ _ h3,
      packI16_length _ _ h4, packI16_length _ _ h5, packI16_length _ _ h6,
      packI16_length _ _ h7, packI16_length _ _ h8]
  · exact absurd hp (by simp)

/-! List helpers for slicing the assembled buffer. -/

theorem drop_chunk (a b : List Nat) (n m : Nat) (h : a.length = n) :
    (a ++ b).drop (n + m) = b.drop m := by
  subst h
  exact List.drop_append m

theorem take_pref (a b : List Nat) (n : Nat) (h : a.length = n) :
    (a ++ b).take n = a := by
  subst h
  exact List.take_left a b

theorem single_encode_gx_parts (md : Single.Metadata) (bmp : List Nat) (doc : List String)
    (out : List Nat) (h : Single.encode_gx md bmp doc = some out) :
    ∃ gb p1 p2 p3, encodeLatin1 (pyJoin doc) = some gb ∧
      pack4i 0 58 14512 14512 = some p1 ∧
      packiiih (max md.print_time 1) md.filament_usage md.filament_usage 0 = some p2 ∧
      pack8h md.layer_height 0 2 md.print_speed md.bed_temp md.print_temp 0 1 = some p3 ∧
      out = signature ++ p1 ++ p2 ++ p3 ++ bmp ++ gb := by
  unfold Single.encode_gx at h
  split at h
  · rename_i gb p1 p2 p3 hgb hp1 hp2 hp3
    exact ⟨gb, p1, p2, p3, hgb, hp1, hp2, hp3, (Option.some_inj.mp h).symm⟩
  · exact absurd h (by simp)

theorem dual_encode_gx_parts (md : Dual.Metadata) (bmp : List Nat) (doc : List String)
    (out : List Nat) (h : Dual.encode_gx md bmp doc = some out) :
    ∃ gb p1 p2 p3, encodeLatin1 (pyJoin doc) = some gb ∧
      pack4i 0 58 14512 14512 = some p1 ∧
      packiiih (max md.print_time 1) md.filament_usage md.filament_usage_left
        md.multi_extruder_type = some p2 ∧
      pack8h md.layer_height 0 2 md.print_speed md.bed_temp md.print_temp
        md.print_temp_left 1 = some p3 ∧
      out = signature ++ p1 ++ p2 ++ p3 ++ bmp ++ gb := by
  unfold Dual.encode_gx at h
  split at h
  · rename_i gb p1 p2 p3 hgb hp1 hp2 hp3
    exact ⟨gb, p1, p2, p3, hgb, hp1, hp2, hp3, (Option.some_inj.mp h).symm⟩
  · exact absurd h (by simp)

theorem assembled_length (gb p1 p2 p3 bmp : List Nat)
    (h1 : p1.length = 16) (h2 : p2.length = 14) (h3 : p3.length = 16) :
    (signature ++ p1 ++ p2 ++ p3 ++ bmp ++ gb).length = 58 + bmp.length + gb.length := by
  simp [List.length_append, signature_length, h1, h2, h3]
  omega

theorem assembled_drop (gb p1 p2 p3 bmp : List Nat)
    (h1 : p1.length = 16) (h2 : p2.length = 14) (h3 : p3.length = 16) :
    (signature ++ p1 ++ p2 ++ p3 ++ bmp ++ gb).drop (58 + bmp.length) = gb := by
  have harith : 58 + bmp.length = 12 + (16 + (14 + (16 + (bmp.length + 0)))) := by omega
  rw [List.append_assoc, List.append_assoc, List.append_assoc, List.append_assoc, harith,
    drop_chunk _ _ _ _ signature_length, drop_chunk _ _ _ _ h1, drop_chunk _ _ _ _ h2,
    drop_chunk _ _ _ _ h3, drop_chunk _ _ _ _ rfl]
  rfl

/-! Helper lemmas about the pipeline stages. -/

theorem toList_append (a b : String) : (a ++ b).toList = a.toList ++ b.toList := by
  cases a
  cases b
  rfl

theorem single_extract_from_none (l : String) (hl : Single.updateLine l = none) :
    ∀ (ls : List String) (md : Single.Metadata), l ∈ ls →
      Single.extract_metadata_from ls md = none := by
  intro ls
  induction ls with
  | nil => intro md h; cases h
  | cons a as ih =>
    intro md hmem
    rcases List.mem_cons.mp hmem with rfl | hmem2
    · simp [Single.extract_metadata_from, hl]
    · unfold Single.extract_metadata_from
      cases Single.updateLine a with
      | none => rfl
      | some f => exact ih (f md) hmem2

theorem dual_extract_from_none (l : String) (hl : Dual.updateLine l = none) :
    ∀ (ls : List String) (md : Dual.Metadata), l ∈ ls →
      Dual.extract_metadata_from ls md = none := by
  intro ls
  induction ls with
  | nil => intro md h; cases h
  | cons a as ih =>
    intro md hmem
    rcases List.mem_cons.mp hmem with rfl | hmem2
    · simp [Dual.extract_metadata_from, hl]
    · unfold Dual.extract_metadata_from
      cases Dual.updateLine a with
      | none => rfl
      | some f => exact ih (f md) hmem2

theorem single_mem_load_gcode (x : String) (doc : List String) (h : x ∈ doc) :
    x ∈ Single.load_gcode doc := by
  unfold Single.load_gcode
  split
  · exact h
  · exact List.mem_cons_of_mem _ h

theorem dual_mem_load_gcode (x : String) (doc : List String) (h : x ∈ doc) :
    x ∈ Dual.load_gcode doc := by
  induction doc with
  | nil => cases h
  | cons a as ih =>
    unfold Dual.load_gcode
    rcases List.mem_cons.mp h with rfl | hmem
    · split <;> exact List.mem_cons_self _ _
    · split
      · simp [List.mem_cons, hmem]
      · exact List.mem_cons_of_mem _ (ih hmem)

theorem collectB64_empty (doc : List String)
    (h : ∀ l ∈ doc, containsSub l "thumbnail begin" = false) :
    collectB64 doc false = "" := by
  induction doc with
  | nil => rfl
  | cons a as ih =>
    unfold collectB64
    rw [h a (List.mem_cons_self a as)]
    simp only [Bool.false_eq_true, if_false]
    split
    · rfl
    · exact ih (fun l hl => h l (List.mem_cons_of_mem a hl))

theorem encodeLatin1_none (s : String) (ch : Char) (hmem : ch ∈ s.toList)
    (hgt : 255 < ch.toNat) : encodeLatin1 s = none := by
  unfold encodeLatin1
  split
  · rename_i hall
    have := List.all_eq_true.mp hall ch hmem
    simp at this
    omega
  · rfl

theorem single_encode_gx_of_latin1_none (md : Single.Metadata) (bmp : List Nat)
    (doc : List String) (h : encodeLatin1 (pyJoin doc) = none) :
    Single.encode_gx md bmp doc = none := by
  unfold Single.encode_gx
  rw [h]

theorem dual_encode_gx_of_latin1_none (md : Dual.Metadata) (bmp : List Nat)
    (doc : List String) (h : encodeLatin1 (pyJoin doc) = none) :
    Dual.encode_gx md bmp doc = none := by
  unfold Dual.encode_gx
  rw [h]

theorem single_bad_char_load (ch : Char) (doc : List String)
    (h : ch ∈ (pyJoin doc).toList) : ch ∈ (pyJoin (Single.load_gcode doc)).toList := by
  unfold Single.load_gcode
  split
  · exact h
  · rw [pyJoin, toList_append]
    exact List.mem_append_right _ h

theorem dual_bad_char_load (ch : Char) (doc : List String)
    (h : ch ∈ (pyJoin doc).toList) : ch ∈ (pyJoin (Dual.load_gcode doc)).toList := by
  induction doc with
  | nil => cases h
  | cons a as ih =>
    rw [pyJoin, toList_append] at h
    unfold Dual.load_gcode
    split
    · rw [pyJoin, toList_append, pyJoin, toList_append, pyJoin, toList_append]
      rcases List.mem_append.mp h with ha | has
      · exact List.mem_append_left _ ha
      · refine List.mem_append_right _ (List.mem_append_right _ (List.mem_append_right _ has))
    · rw [pyJoin, toList_append]
      rcases List.mem_append.mp h with ha | has
      · exact List.mem_append_left _ ha
      · exact List.mem_append_right _ (ih has)

/-! Claim theorems. -/

/-- C1 counterexample: on the document with single line `T0` and the
two-byte stand-in thumbnail, the assembled single-extruder output is
58 + len(thumbnail) + len(gcode_bytes) bytes long, which differs from the
claimed 23 + 12 + len(thumbnail) + len(gcode_bytes). -/
theorem gx_total_length_claim_cex :
    (Single.convert codec0 ["T0\n"]).map List.length =
      some (58 + codec0.blankBmp.length + 3) ∧
    58 + codec0.blankBmp.length + 3 ≠ 23 + 12 + codec0.blankBmp.length + 3 := by
  decide

/-- C1 (amended): for every metadata value, thumbnail and document, a
successfully assembled GX byte sequence of either variant has length
58 + len(thumbnail) + len(gcode_bytes), where 58 = 12 (signature) +
16 (four 4-byte constants) + 14 (three 4-byte ints and one 2-byte int) +
16 (eight 2-byte ints); the numeric header after the four constants
occupies the stated 3x4 + 1x2 + 8x2 = 30 bytes. -/
theorem gx_total_length (md1 : Single.Metadata) (md2 : Dual.Metadata) (bmp : List Nat)
    (doc : List String) (gb : List Nat) (hgb : encodeLatin1 (pyJoin doc) = some gb) :
    (∀ out, Single.encode_gx md1 bmp doc = some out →
      out.length = 58 + bmp.length + gb.length) ∧
    (∀ out, Dual.encode_gx md2 bmp doc = some out →
      out.length = 58 + bmp.length + gb.length) := by
  constructor
  · intro out h
    obtain ⟨gb2, p1, p2, p3, hgb2, hp1, hp2, hp3, hout⟩ :=
      single_encode_gx_parts md1 bmp doc out h
    rw [hgb] at hgb2
    have hgbeq : gb2 = gb := (Option.some_inj.mp hgb2.symm)
    subst hgbeq
    rw [hout]
    exact assembled_length gb2 p1 p2 p3 bmp (pack4i_length _ _ _ _ _ hp1)
      (packiiih_length _ _ _ _ _ hp2) (pack8h_length _ _ _ _ _ _ _ _ _ hp3)
  · intro out h
    obtain ⟨gb2, p1, p2, p3, hgb2, hp1, hp2, hp3, hout⟩ :=
      dual_encode_gx_parts md2 bmp doc out h
    rw [hgb] at hgb2
    have hgbeq : gb2 = gb := (Option.some_inj.mp hgb2.symm)
    subst hgbeq
    rw [hout]
    exact assembled_length gb2 p1 p2 p3 bmp (pack4i_length _ _ _ _ _ hp1)
      (packiiih_length _ _ _ _ _ hp2) (pack8h_length _ _ _ _ _ _ _ _ _ hp3)

/-- C1 witness: the amended length formula evaluated on a concrete
document, thumbnail and metadata. -/
theorem gx_total_length_witness :
    ((Single.encode_gx {} [66, 77] ["T0\n"]).getD []).length = 58 + 2 + 3 :=
  (gx_total_length {} {} [66, 77] ["T0\n"] [84, 48, 10] (by decide)).1
    ((Single.encode_gx {} [66, 77] ["T0\n"]).getD []) (by rfl)

/-- C2: stripping the 58 header bytes and the thumbnail bytes off a
successfully assembled output of either pipeline leaves exactly the
latin-1 bytes of the tool-header-normalized document joined into one
string. -/
theorem gx_body_roundtrip (c : Codec) (doc : List String) (gb1 gb2 : List Nat)
    (hgb1 : encodeLatin1 (pyJoin (Single.load_gcode doc)) = some gb1)
    (hgb2 : encodeLatin1 (pyJoin (Dual.load_gcode doc)) = some gb2) :
    (∀ out, Single.convert c doc = some out →
      out.drop (58 + (chooseBmp c (Single.load_gcode doc)).length) = gb1) ∧
    (∀ out, Dual.convert c doc = some out →
      out.drop (58 + (chooseBmp c (Dual.load_gcode doc)).length) = gb2) := by
  constructor
  · intro out h
    unfold Single.convert at h
    split at h
    · rename_i md hmd
      obtain ⟨gb0, p1, p2, p3, hgb0, hp1, hp2, hp3, hout⟩ :=
        single_encode_gx_parts md _ _ out h
      rw [hgb1] at hgb0
      have hgbeq : gb0 = gb1 := (Option.some_inj.mp hgb0.symm)
      subst hgbeq
      rw [hout]
      exact assembled_drop gb0 p1 p2 p3 _ (pack4i_length _ _ _ _ _ hp1)
        (packiiih_length _ _ _ _ _ hp2) (pack8h_length _ _ _ _ _ _ _ _ _ hp3)
    · exact absurd h (by simp)
  · intro out h
    unfold Dual.convert at h
    split at h
    · rename_i md hmd
      obtain ⟨gb0, p1, p2, p3, hgb0, hp1, hp2, hp3, hout⟩ :=
        dual_encode_gx_parts md _ _ out h
      rw [hgb2] at hgb0
      have hgbeq : gb0 = gb2 := (Option.some_inj.mp hgb0.symm)
      subst hgbeq
      rw [hout]
      exact assembled_drop gb0 p1 p2 p3 _ (pack4i_length _ _ _ _ _ hp1)
        (packiiih_length _ _ _ _ _ hp2) (pack8h_length _ _ _ _ _ _ _ _ _ hp3)
    · exact absurd h (by simp)

/-- C2 witness: the round-trip equation evaluated on a concrete document
through the single-extruder pipeline (the inserted `T0` line included). -/
theorem gx_body_roundtrip_witness :
    ((Single.convert codec0 ["G1 X0\n"]).getD []).drop
      (58 + (chooseBmp codec0 (Single.load_gcode ["G1 X0\n"])).length) =
      ("T0 ; Set primary extruderG1 X0\n".toList.map Char.toNat) :=
  (gx_body_roundtrip codec0 ["G1 X0\n"]
      ("T0 ; Set primary extruderG1 X0\n".toList.map Char.toNat)
      ("G1 X0\n".toList.map Char.toNat) (by decide) (by decide)).1
    ((Single.convert codec0 ["G1 X0\n"]).getD []) (by rfl)

/-- C3: evaluating the single-extruder pipeline on a document whose
filament line reads 100 mm shows the secondary-filament slot of the
`<iiih` group (bytes 36..40 of the output) carries 100, the primary usage
packed a second time, not the zero the spec states; the claim is right
about the intent (line 58 of the source sets `filament_usage_left = 0` to
"ensure single-extruder format") but line 108 packs `filament_usage`
twice instead of using it. -/
theorem single_secondary_filament_nonzero :
    decodeI32LE ((((Single.convert codec0
      ["T0\n", "; filament used [mm] = 100\n"]).getD []).drop 36).take 4) = 100 ∧
    (100 : Int) ≠ 0 := by
  decide

/-- C4 counterexample: in the single-extruder variant a comma-separated
filament value is not parsed into primary and secondary; it makes the
whole extraction fail (`float` raises on the comma), so the claim's "in
both variants" is false. -/
theorem filament_comma_single_cex :
    Single.extract_metadata ["; filament used [mm] = 1234.5, 678.9\n"] = none ∧
    Single.convert codec0 ["; filament used [mm] = 1234.5, 678.9\n"] = none := by
  decide

theorem isPrefixOf_append_self (l t : List Char) : l.isPrefixOf (l ++ t) = true :=
  List.isPrefixOf_iff_prefix.mpr (List.prefix_append l t)

theorem strStartsWith_append_self (p v : String) : strStartsWith (p ++ v) p = true := by
  unfold strStartsWith
  rw [toList_append]
  exact isPrefixOf_append_self p.toList v.toList

theorem isPrefixOf_false_of_take3_ne (a b t : List Char)
    (hna : 3 ≤ a.length) (hnb : 3 ≤ b.length) (hne : a.take 3 ≠ b.take 3) :
    a.isPrefixOf (b ++ t) = false := by
  cases hq : a.isPrefixOf (b ++ t) with
  | false => rfl
  | true =>
    exfalso
    apply hne
    obtain ⟨u, hu⟩ := List.isPrefixOf_iff_prefix.mp hq
    calc a.take 3 = ((a ++ u).take 3) := (List.take_append_of_le_length hna).symm
      _ = (b ++ t).take 3 := by rw [hu]
      _ = b.take 3 := List.take_append_of_le_length hnb

theorem strStartsWith_filament_not_time (v : String) :
    strStartsWith ("; filament used [mm] =" ++ v)
      "; estimated printing time (normal mode) =" = false := by
  unfold strStartsWith
  rw [toList_append]
  exact isPrefixOf_false_of_take3_ne _ _ _ (by decide) (by decide) (by decide)

theorem mem_dropWhile (p : Char → Bool) (c : Char) (hc : p c = false) :
    ∀ l : List Char, c ∈ l → c ∈ l.dropWhile p := by
  intro l
  induction l with
  | nil => intro h; cases h
  | cons a as ih =>
    intro h
    rw [List.dropWhile_cons]
    split
    · rename_i hpa
      rcases List.mem_cons.mp h with rfl | h2
      · rw [hpa] at hc; cases hc
      · exact ih h2
    · exact h

theorem mem_pyStripList (c : Char) (hc : isPySpace c = false) (l : List Char)
    (h : c ∈ l) : c ∈ pyStripList l := by
  unfold pyStripList
  rw [List.mem_reverse]
  apply mem_dropWhile isPySpace c hc
  rw [List.mem_reverse]
  exact mem_dropWhile isPySpace c hc l h

theorem parseUnsignedDec_comma_none (cs : List Char) (h : ',' ∈ cs) :
    parseUnsignedDec cs = none := by
  have hrest : ',' ∈ cs.dropWhile Char.isDigit :=
    mem_dropWhile Char.isDigit ',' (by decide) cs h
  unfold parseUnsignedDec
  split
  · rename_i heq
    rw [heq] at hrest
    cases hrest
  · rename_i fr heq
    rw [heq] at hrest
    have hfr : ',' ∈ fr := by
      rcases List.mem_cons.mp hrest with h2 | h2
      · exact absurd h2 (by decide)
      · exact h2
    have hall : fr.all Char.isDigit = false := by
      cases hq : fr.all Char.isDigit with
      | false => rfl
      | true => exact absurd (List.all_eq_true.mp hq ',' hfr) (by decide)
    rw [hall]
    rfl
  · rfl

theorem pyFloat_comma_none (s : String) (h : ',' ∈ s.toList) : pyFloat s = none := by
  have hmem : ',' ∈ pyStripList s.toList := mem_pyStripList ',' (by decide) _ h
  unfold pyFloat
  split
  · rename_i cs heq
    rw [heq] at hmem
    have hcs : ',' ∈ cs := by
      rcases List.mem_cons.mp hmem with h2 | h2
      · exact absurd h2 (by decide)
      · exact h2
    rw [parseUnsignedDec_comma_none cs hcs]
    rfl
  · rename_i cs heq
    rw [heq] at hmem
    have hcs : ',' ∈ cs := by
      rcases List.mem_cons.mp hmem with h2 | h2
      · exact absurd h2 (by decide)
      · exact h2
    exact parseUnsignedDec_comma_none cs hcs
  · rename_i heq
    exact parseUnsignedDec_comma_none _ hmem

theorem pyIntFloat_comma_none (s : String) (h : ',' ∈ s.toList) :
    pyIntFloat s = none := by
  unfold pyIntFloat
  rw [pyFloat_comma_none s h]
  rfl

theorem single_updateLine_filament (v : String) :
    Single.updateLine ("; filament used [mm] =" ++ v) =
      (pyIntFloat (pyStrip (afterEq ("; filament used [mm] =" ++ v)))).map
        (fun p => fun md => { md with filament_usage := p, filament_usage_left := 0 }) := by
  unfold Single.updateLine
  simp only [strStartsWith_filament_not_time, strStartsWith_append_self,
    Bool.false_eq_true, if_false, if_true]
  cases pyIntFloat (pyStrip (afterEq ("; filament used [mm] =" ++ v))) <;> rfl

theorem dual_updateLine_filament (v : String) :
    Dual.updateLine ("; filament used [mm] =" ++ v) =
      (match (splitOnChar ','
          (pyStrip (afterEq ("; filament used [mm] =" ++ v))).toList).map String.mk with
      | [w] =>
        match pyIntFloat (pyStrip w) with
        | some p => some (fun md => { md with filament_usage := p })
        | none => none
      | w0 :: w1 :: _ =>
        match pyIntFloat (pyStrip w0), pyIntFloat (pyStrip w1) with
        | some p, some q =>
          some (fun md => { md with filament_usage := p, filament_usage_left := q })
        | _, _ => none
      | [] => none) := by
  unfold Dual.updateLine
  simp only [strStartsWith_filament_not_time, strStartsWith_append_self,
    Bool.false_eq_true, if_false, if_true]

/-- C4 (amended): a line starting with the filament prefix is the prefix
followed by some text v, and its value is the text between the first and
second equals sign, stripped.  For every such line: the single-extruder
variant parses the whole value as one float truncated into the primary
field with the secondary forced to 0, failing when the value does not
parse — in particular whenever the value contains a comma, which is fatal
for the whole run; the dual-extruder variant splits the value on commas:
a single piece is truncated into the primary field only (the secondary
keeps its default 0), and with two or more pieces the first two are
truncated into primary and secondary respectively (failing when either
does not parse). -/
theorem filament_parsing_amended (v w w0 w1 : String) (rest : List String) :
    (Single.updateLine ("; filament used [mm] =" ++ v) =
      (pyIntFloat (pyStrip (afterEq ("; filament used [mm] =" ++ v)))).map
        (fun p => fun md => { md with filament_usage := p, filament_usage_left := 0 })) ∧
    (',' ∈ (pyStrip (afterEq ("; filament used [mm] =" ++ v))).toList →
      Single.updateLine ("; filament used [mm] =" ++ v) = none ∧
      ∀ doc, ("; filament used [mm] =" ++ v) ∈ doc →
        Single.extract_metadata doc = none) ∧
    ((splitOnChar ','
        (pyStrip (afterEq ("; filament used [mm] =" ++ v))).toList).map String.mk = [w] →
      Dual.updateLine ("; filament used [mm] =" ++ v) =
        (match pyIntFloat (pyStrip w) with
        | some p => some (fun md => { md with filament_usage := p })
        | none => none)) ∧
    ((splitOnChar ','
        (pyStrip (afterEq ("; filament used [mm] =" ++ v))).toList).map String.mk
          = w0 :: w1 :: rest →
      Dual.updateLine ("; filament used [mm] =" ++ v) =
        (match pyIntFloat (pyStrip w0), pyIntFloat (pyStrip w1) with
        | some p, some q =>
          some (fun md => { md with filament_usage := p, filament_usage_left := q })
        | _, _ => none)) := by
  refine ⟨single_updateLine_filament v, ?_, ?_, ?_⟩
  · intro hcomma
    have hupd : Single.updateLine ("; filament used [mm] =" ++ v) = none := by
      rw [single_updateLine_filament v,
        pyIntFloat_comma_none (pyStrip (afterEq ("; filament used [mm] =" ++ v))) hcomma]
      rfl
    exact ⟨hupd, fun doc hdoc => single_extract_from_none _ hupd doc {} hdoc⟩
  · intro hparts
    rw [dual_updateLine_filament v, hparts]
  · intro hparts
    rw [dual_updateLine_filament v, hparts]

/-- C4 witness: the universal parsing rule instantiated at the spec's
example values in both variants. -/
theorem filament_parsing_amended_witness :
    Single.updateLine ("; filament used [mm] =" ++ " 1234.5\n") =
      some (fun md => { md with filament_usage := 1234, filament_usage_left := 0 }) ∧
    Single.updateLine ("; filament used [mm] =" ++ " 1234.5, 678.9\n") = none ∧
    Dual.updateLine ("; filament used [mm] =" ++ " 1234.5\n") =
      some (fun md => { md with filament_usage := 1234 }) ∧
    Dual.updateLine ("; filament used [mm] =" ++ " 1234.5, 678.9\n") =
      some (fun md => { md with filament_usage := 1234, filament_usage_left := 678 }) :=
  ⟨(filament_parsing_amended " 1234.5\n" "" "" "" []).1.trans (by rfl),
   ((filament_parsing_amended " 1234.5, 678.9\n" "" "" "" []).2.1 (by decide)).1,
   ((filament_parsing_amended " 1234.5\n" "1234.5" "" "" []).2.2.1 (by decide)).trans
     (by rfl),
   ((filament_parsing_amended " 1234.5, 678.9\n" "" "1234.5" " 678.9" []).2.2.2
     (by decide)).trans (by rfl)⟩

/-- C5: in both variants, the print-time field of a successfully
assembled output (the 4 bytes at offset 28) decodes to
`max(print_time, 1)` and is therefore at least 1, whatever value the
extraction produced. -/
theorem print_time_field_at_least_one (md1 : Single.Metadata) (md2 : Dual.Metadata)
    (bmp : List Nat) (doc : List String) :
    (∀ out, Single.encode_gx md1 bmp doc = some out →
      decodeI32LE ((out.drop 28).take 4) = max md1.print_time 1 ∧
      1 ≤ decodeI32LE ((out.drop 28).take 4)) ∧
    (∀ out, Dual.encode_gx md2 bmp doc = some out →
      decodeI32LE ((out.drop 28).take 4) = max md2.print_time 1 ∧
      1 ≤ decodeI32LE ((out.drop 28).take 4)) := by
  constructor
  · intro out h
    obtain ⟨gb, p1, p2, p3, hgb, hp1, hp2, hp3, hout⟩ :=
      single_encode_gx_parts md1 bmp doc out h
    obtain ⟨x, y, z, w, hx, hy, hz, hw, hp2e⟩ := packiiih_parts _ _ _ _ _ hp2
    have hdrop : (out.drop 28).take 4 = x := by
      have h28 : (28 : Nat) = 12 + (16 + 0) := rfl
      rw [hout, hp2e, List.append_assoc, List.append_assoc, List.append_assoc,
        List.append_assoc, h28, drop_chunk _ _ _ _ signature_length,
        drop_chunk _ _ _ _ (pack4i_length _ _ _ _ _ hp1), List.drop_zero,
        List.append_assoc, List.append_assoc, List.append_assoc,
        take_pref _ _ _ (packI32_length _ _ hx)]
    rw [hdrop, packI32_decodeI32LE _ _ hx]
    exact ⟨rfl, le_max_right _ _⟩
  · intro out h
    obtain ⟨gb, p1, p2, p3, hgb, hp1, hp2, hp3, hout⟩ :=
      dual_encode_gx_parts md2 bmp doc out h
    obtain ⟨x, y, z, w, hx, hy, hz, hw, hp2e⟩ := packiiih_parts _ _ _ _ _ hp2
    have hdrop : (out.drop 28).take 4 = x := by
      have h28 : (28 : Nat) = 12 + (16 + 0) := rfl
      rw [hout, hp2e, List.append_assoc, List.append_assoc, List.append_assoc,
        List.append_assoc, h28, drop_chunk _ _ _ _ signature_length,
        drop_chunk _ _ _ _ (pack4i_length _ _ _ _ _ hp1), List.drop_zero,
        List.append_assoc, List.append_assoc, List.append_assoc,
        take_pref _ _ _ (packI32_length _ _ hx)]
    rw [hdrop, packI32_decodeI32LE _ _ hx]
    exact ⟨rfl, le_max_right _ _⟩

/-- C5 witness: the print-time field of a concretely assembled output with
the all-default metadata (parsed print time 0) decodes to 1. -/
theorem print_time_field_at_least_one_witness :
    1 ≤ decodeI32LE ((((Single.encode_gx {} [] []).getD []).drop 28).take 4) :=
  ((print_time_field_at_least_one {} {} [] []).1
    ((Single.encode_gx {} [] []).getD []) (by rfl)).2

/-- C6: for any codec behavior, a document with no line containing the
thumbnail begin-marker, or whose collected thumbnail block the image chain
fails to decode or convert, gives a thumbnail extraction of `none` (no
error), and the thumbnail bytes chosen for the output are exactly the
generated blank bitmap bytes; choosing the bytes is total, so the pipeline
never fails for this reason alone. -/
theorem thumbnail_fallback (c : Codec) (doc : List String)
    (h : (∀ l ∈ doc, containsSub l "thumbnail begin" = false) ∨
      c.decodeImage (collectB64 doc false) = none) :
    extract_and_convert_thumbnail c doc = none ∧ chooseBmp c doc = c.blankBmp := by
  have hext : extract_and_convert_thumbnail c doc = none := by
    rcases h with hno | hdec
    · unfold extract_and_convert_thumbnail
      rw [collectB64_empty doc hno]
      rfl
    · unfold extract_and_convert_thumbnail
      split
      · rfl
      · exact hdec
  refine ⟨hext, ?_⟩
  unfold chooseBmp
  rw [hext]

/-- C6 witness: the fallback evaluated on a concrete document with no
thumbnail block under a concrete codec. -/
theorem thumbnail_fallback_witness :
    extract_and_convert_thumbnail codec0 ["G1 X0\n"] = none ∧
    chooseBmp codec0 ["G1 X0\n"] = codec0.blankBmp :=
  thumbnail_fallback codec0 ["G1 X0\n"] (Or.inl (by decide))

theorem single_load_gcode_insert (doc : List String)
    (h : (doc.take 10).any (fun l => strStartsWith l "T0") = false) :
    Single.load_gcode doc = "T0 ; Set primary extruder" :: doc := by
  simp [Single.load_gcode, h]

theorem dual_load_gcode_no_marker (doc : List String)
    (h : ∀ l ∈ doc, pyStrip l ≠ "; Executable_black_start") :
    Dual.load_gcode doc = doc := by
  induction doc with
  | nil => rfl
  | cons a as ih =>
    unfold Dual.load_gcode
    rw [if_neg (h a (List.mem_cons_self a as))]
    rw [ih (fun l hl => h l (List.mem_cons_of_mem a hl))]

/-- C7: single-extruder, if none of the first 10 lines starts with `T0`
then exactly that line is prepended as the new first line, and no
insertion occurs otherwise; dual-extruder, if no line's stripped content
equals the executable-start marker then the document is unchanged. -/
theorem tool_header_normalization (doc : List String) :
    ((doc.take 10).any (fun l => strStartsWith l "T0") = false →
      Single.load_gcode doc = "T0 ; Set primary extruder" :: doc) ∧
    ((doc.take 10).any (fun l => strStartsWith l "T0") = true →
      Single.load_gcode doc = doc) ∧
    ((∀ l ∈ doc, pyStrip l ≠ "; Executable_black_start") →
      Dual.load_gcode doc = doc) := by
  refine ⟨single_load_gcode_insert doc, ?_, dual_load_gcode_no_marker doc⟩
  intro h
  simp [Single.load_gcode, h]

/-- C7 witness: both normalizations evaluated on a concrete document with
no tool-select line and no marker. -/
theorem tool_header_normalization_witness :
    Single.load_gcode ["G1 X0\n"] = "T0 ; Set primary extruder" :: ["G1 X0\n"] ∧
    Dual.load_gcode ["G1 X0\n"] = ["G1 X0\n"] :=
  ⟨(tool_header_normalization ["G1 X0\n"]).1 (by decide),
   (tool_header_normalization ["G1 X0\n"]).2.2 (by decide)⟩

/-- C8: a line of the input document that a variant's recognizer matches
but cannot parse makes that variant's whole metadata extraction come back
`none` (fail fast) and the whole pipeline produce no output. -/
theorem metadata_parse_fail_fast (doc : List String) (line : String) (c : Codec)
    (hmem : line ∈ doc) :
    (Single.updateLine line = none →
      Single.extract_metadata (Single.load_gcode doc) = none ∧
      Single.convert c doc = none) ∧
    (Dual.updateLine line = none →
      Dual.extract_metadata (Dual.load_gcode doc) = none ∧
      Dual.convert c doc = none) := by
  constructor
  · intro h
    have hext : Single.extract_metadata (Single.load_gcode doc) = none :=
      single_extract_from_none line h _ {} (single_mem_load_gcode line doc hmem)
    refine ⟨hext, ?_⟩
    unfold Single.convert
    rw [hext]
  · intro h
    have hext : Dual.extract_metadata (Dual.load_gcode doc) = none :=
      dual_extract_from_none line h _ {} (dual_mem_load_gcode line doc hmem)
    refine ⟨hext, ?_⟩
    unfold Dual.convert
    rw [hext]

/-- C8 witness: a recognized layer-height line with an unparsable value
makes both variants' extraction and pipeline fail on a concrete document. -/
theorem metadata_parse_fail_fast_witness :
    Single.extract_metadata (Single.load_gcode ["; layer_height = abc\n"]) = none ∧
    Single.convert codec0 ["; layer_height = abc\n"] = none ∧
    Dual.extract_metadata (Dual.load_gcode ["; layer_height = abc\n"]) = none ∧
    Dual.convert codec0 ["; layer_height = abc\n"] = none := by
  have h1 := (metadata_parse_fail_fast ["; layer_height = abc\n"] "; layer_height = abc\n"
    codec0 (by decide)).1 (by rfl)
  have h2 := (metadata_parse_fail_fast ["; layer_height = abc\n"] "; layer_height = abc\n"
    codec0 (by decide)).2 (by rfl)
  exact ⟨h1.1, h1.2, h2.1, h2.2⟩

/-- C9 counterexample: on a document containing the euro sign (code point
8364), serialization does not drop the character and carry on: the latin-1
encoding raises and both pipelines produce no output at all. -/
theorem latin1_drop_claim_cex :
    encodeLatin1 "€" = none ∧
    Single.convert codec0 ["€\n"] = none ∧
    Dual.convert codec0 ["€\n"] = none := by
  decide

/-- C9 (amended): for every document containing a character whose code
point does not fit in one byte, serializing the G-code body fails the
assembly (a fatal encoding error, no output), in both variants; the lossy
dropping the spec mentions happens only at input decoding of malformed
bytes, which is outside the pure core. -/
theorem latin1_raises (c : Codec) (doc : List String) (ch : Char)
    (hmem : ch ∈ (pyJoin doc).toList) (hgt : 255 < ch.toNat) :
    Single.convert c doc = none ∧ Dual.convert c doc = none := by
  constructor
  · unfold Single.convert
    cases hx : Single.extract_metadata (Single.load_gcode doc) with
    | none => rfl
    | some md =>
      exact single_encode_gx_of_latin1_none md _ _
        (encodeLatin1_none _ ch (single_bad_char_load ch doc hmem) hgt)
  · unfold Dual.convert
    cases hx : Dual.extract_metadata (Dual.load_gcode doc) with
    | none => rfl
    | some md =>
      exact dual_encode_gx_of_latin1_none md _ _
        (encodeLatin1_none _ ch (dual_bad_char_load ch doc hmem) hgt)

/-- C9 witness: the amended statement evaluated on a concrete document
with a euro sign in the middle of a line. -/
theorem latin1_raises_witness :
    Single.convert codec0 ["G1 €\n"] = none ∧
    Dual.convert codec0 ["G1 €\n"] = none :=
  latin1_raises codec0 ["G1 €\n"] '€' (by decide) (by decide)

/-- C10: the tool-select line the single-extruder normalization prepends
carries no newline character, so the serialized body is the inserted text
immediately followed by the originally-first line on the same line. -/
theorem inserted_t0_no_newline (l : String) (ls : List String)
    (h : ((l :: ls).take 10).any (fun x => strStartsWith x "T0") = false) :
    pyJoin (Single.load_gcode (l :: ls)) =
      "T0 ; Set primary extruder" ++ (l ++ pyJoin ls) ∧
    ("T0 ; Set primary extruder".toList.contains '\n') = false := by
  constructor
  · rw [single_load_gcode_insert (l :: ls) h]
    rfl
  · decide

/-- C10 witness: the concatenation evaluated on a concrete document. -/
theorem inserted_t0_no_newline_witness :
    pyJoin (Single.load_gcode ["G1 X0\n"]) =
      "T0 ; Set primary extruder" ++ ("G1 X0\n" ++ pyJoin []) ∧
    ("T0 ; Set primary extruder".toList.contains '\n') = false :=
  inserted_t0_no_newline "G1 X0\n" [] (by decide)
